import Mathlib

set_option maxRecDepth 8192

/-!
Verification of the FileMaker MCP client (session / query / metadata client).

The model is a shallow embedding of the TypeScript source.  JavaScript runtime
values are modelled by `JsVal` (JSON values plus `undefined`); property and
index access follow JavaScript semantics, throwing (`Except.error`) on
`null`/`undefined` receivers.  The network environment of one operation is a
`FetchOutcome`: either the `fetch` promise rejects, or an HTTP reply arrives
with a status and a body whose JSON decoding may itself fail.  Each operation
of the source becomes a total Lean function from its arguments and the
`FetchOutcome` to its result envelope (or, for the token-release operation,
an `Except` mirroring its propagated exceptions).
-/

namespace FM

/-- JavaScript runtime values: JSON values together with `undefined`.
Objects are ordered key/value lists, as produced by `JSON.parse` and object
literals. -/
inductive JsVal where
  | undefined
  | null
  | bool (b : Bool)
  | num (n : Int)
  | str (s : String)
  | arr (elems : List JsVal)
  | obj (fields : List (String × JsVal))

/-- First binding of a key in an object's field list (JS objects hold at most
one binding per key, so first-match is exact for values built here). -/
def lookupField : List (String × JsVal) → String → Option JsVal
  | [], _ => none
  | (k, v) :: rest, key => if k == key then some v else lookupField rest key

/-- JavaScript falsiness: `undefined`, `null`, `false`, `0`, and `""` are
falsy; every object, array and other primitive is truthy. -/
def jsFalsy : JsVal → Bool
  | .undefined => true
  | .null => true
  | .bool b => !b
  | .num n => n == 0
  | .str s => s == ""
  | .arr _ => false
  | .obj _ => false

/-- Strict inequality `x !== s` against a string literal: false exactly when
`x` is that string. -/
def jsStrictNe (x : JsVal) (s : String) : Bool :=
  match x with
  | .str t => t != s
  | _ => true

/-- Property read `x.k`.  Throws (TypeError) on `null` and `undefined`
receivers; on objects it yields the bound value or `undefined`; on arrays and
strings only `length` is populated (no key used by the source is numeric); on
other primitives it yields `undefined`. -/
def getProp : JsVal → String → Except Unit JsVal
  | .undefined, _ => .error ()
  | .null, _ => .error ()
  | .obj fs, k => .ok ((lookupField fs k).getD .undefined)
  | .arr es, k => .ok (if k == "length" then .num (es.length : Int) else .undefined)
  | .str s, k => .ok (if k == "length" then .num (s.length : Int) else .undefined)
  | .bool _, _ => .ok .undefined
  | .num _, _ => .ok .undefined

/-- Index read `x[n]`.  Throws on `null`/`undefined`; arrays yield the element
or `undefined`; objects look the decimal key up; strings yield the character;
other primitives yield `undefined`. -/
def getIndex : JsVal → Nat → Except Unit JsVal
  | .undefined, _ => .error ()
  | .null, _ => .error ()
  | .obj fs, n => .ok ((lookupField fs (toString n)).getD .undefined)
  | .arr es, n => .ok ((es.get? n).getD .undefined)
  | .str s, n => .ok (((s.data.get? n).map (fun c => JsVal.str (String.singleton c))).getD .undefined)
  | .bool _, _ => .ok .undefined
  | .num _, _ => .ok .undefined

/-- Evaluation of `x.messages[0]`. -/
def msgs0 (j : JsVal) : Except Unit JsVal :=
  match getProp j "messages" with
  | .error e => .error e
  | .ok m => getIndex m 0

/-- Evaluation of `x.messages[0].code`. -/
def msgCode (j : JsVal) : Except Unit JsVal :=
  match msgs0 j with
  | .error e => .error e
  | .ok m0 => getProp m0 "code"

/-- Evaluation of `x.messages[0].message`. -/
def msgMessage (j : JsVal) : Except Unit JsVal :=
  match msgs0 j with
  | .error e => .error e
  | .ok m0 => getProp m0 "message"

/-- Evaluation of `x.response.data`. -/
def respData (j : JsVal) : Except Unit JsVal :=
  match getProp j "response" with
  | .error e => .error e
  | .ok r => getProp r "data"

/-- Evaluation of `x.response.token`. -/
def respToken (j : JsVal) : Except Unit JsVal :=
  match getProp j "response" with
  | .error e => .error e
  | .ok r => getProp r "token"

/-- Type guard `isTokenResponse` from the source: the value is a truthy
object, its `response` member is a non-null object, and `response.token` is a
string. -/
def isTokenResponse (data : JsVal) : Bool :=
  match data with
  | .obj fs =>
    match lookupField fs "response" with
    | some (.obj rfs) =>
      match lookupField rfs "token" with
      | some (.str _) => true
      | _ => false
    | _ => false
  | _ => false

/-- Outcome of the one `fetch` an operation performs: the promise rejects with
an engine error message, or an HTTP reply arrives with a status code and a
body whose JSON decoding either fails (with an engine message) or yields a
value. -/
inductive FetchOutcome where
  | netError (emsg : String)
  | reply (status : Nat) (body : Except String JsVal)

/-- The `Response.ok` flag of the Fetch API: status in the 2xx range. -/
def httpOk (status : Nat) : Bool :=
  decide (200 ≤ status) && decide (status ≤ 299)

/-- Response handling of `makeFileMakerRequest`: any rejection, non-2xx
status (thrown and caught internally) or decode failure is converted to
`null` (here `none`); otherwise the decoded body is returned. -/
def makeFileMakerRequest (outcome : FetchOutcome) : Option JsVal :=
  match outcome with
  | .netError _ => none
  | .reply status body =>
    if httpOk status then
      match body with
      | .ok j => some j
      | .error _ => none
    else none

/-- Whether the pattern is a character-wise prefix of the list. -/
def leadsWith : List Char → List Char → Bool
  | [], _ => true
  | _ :: _, [] => false
  | p :: ps, c :: cs => (p == c) && leadsWith ps cs

/-- Whether the pattern occurs as a contiguous run inside the list. -/
def occursIn (pat : List Char) : List Char → Bool
  | [] => leadsWith pat []
  | c :: cs => leadsWith pat (c :: cs) || occursIn pat cs

/-- The `String.prototype.includes` test used as `url.includes` in the
source. -/
def stringContains (s pat : String) : Bool :=
  occursIn pat.data s.data

/-- The query document `JSON.stringify` serialises for a find call:
one condition object binding the field to the equality-prefixed text. -/
def buildFindQuery (fieldName searchText : String) : JsVal :=
  .obj [("query", .arr [.obj [(fieldName, .str ("=" ++ searchText))]])]

/-- Query-building step of `makeFileMakerRequest`: the body is replaced by
the find query only when `fieldName` and `searchText` are truthy strings and
the URL contains the find segment; otherwise the original body is kept. -/
def buildRequestBody (fieldName searchText : Option String)
    (url : String) (body : Option JsVal) : Option JsVal :=
  match fieldName, searchText with
  | some f, some s =>
    if f != "" && s != "" && stringContains url "/_find" then
      some (buildFindQuery f s)
    else body
  | _, _ => body

/-- Session endpoint URL built by `getFileMakerToken`. -/
def sessionsUrl (serverUrl fileName : String) : String :=
  serverUrl ++ "/fmi/data/v1/databases/" ++ fileName ++ "/sessions"

/-- Find endpoint URL built by `findRecords`. -/
def findUrl (serverUrl fileName layoutName : String) : String :=
  serverUrl ++ "/fmi/data/v1/databases/" ++ fileName ++ "/layouts/" ++ layoutName ++ "/_find"

/-- Layout endpoint URL built by `getLayoutMetaData`. -/
def layoutUrl (serverUrl fileName layoutName : String) : String :=
  serverUrl ++ "/fmi/data/v1/databases/" ++ fileName ++ "/layouts/" ++ layoutName

/-- The three failure kinds of the result envelopes. -/
inductive ErrorType where
  | INVALID_RESPONSE
  | FILEMAKER_ERROR
  | API_ERROR
deriving DecidableEq

/-- The `error` member of a failure envelope. -/
structure ErrorInfo where
  type : ErrorType
  message : JsVal
  details : List (String × JsVal)

/-- Result envelope of the three envelope-returning operations.  `data` is
the runtime value of the `data` member, `undefined` when the branch does not set
it; `error` is present exactly on the failure branches. -/
structure Envelope where
  success : Bool
  data : JsVal
  error : Option ErrorInfo

/-- Failure kind carried by an envelope, if any. -/
def errType (e : Envelope) : Option ErrorType :=
  e.error.map ErrorInfo.type

/-- Message of the constant `INVALID_RESPONSE` branches (from the source). -/
def invalidResponseMessage : String := "FileMakerサーバーからの応答が無効です"

/-- Message text of an engine TypeError raised by a property access on
`undefined` or `null`; the exact wording is engine specific and is abstracted
by this constant (no claim inspects it). -/
def typeErrorMessage : String := "TypeError"

/-- The `INVALID_RESPONSE` envelope of `getFileMakerToken`. -/
def tokenInvalidEnvelope (serverUrl fileName : String) : Envelope :=
  { success := false, data := .undefined,
    error := some { type := .INVALID_RESPONSE,
                    message := .str invalidResponseMessage,
                    details := [("url", .str (sessionsUrl serverUrl fileName))] } }

/-- The `API_ERROR` envelope of `getFileMakerToken` for a caught exception. -/
def tokenApiErrorEnvelope (serverUrl fileName : String) : Envelope :=
  { success := false, data := .undefined,
    error := some { type := .API_ERROR,
                    message := .str typeErrorMessage,
                    details := [("url", .str (sessionsUrl serverUrl fileName)),
                                ("originalError", .str typeErrorMessage)] } }

/-- Token acquisition (`getFileMakerToken`, src/unnamed/part_001 lines
170-228): POSTs to the sessions endpoint through `makeFileMakerRequest`; an
absent or non-token-shaped reply is `INVALID_RESPONSE`; then a non-zero
embedded `messages[0].code` is `FILEMAKER_ERROR` with the server's code and
message; a thrown exception is `API_ERROR`; otherwise success with
`response.token`.  The Basic-auth header does not influence the result and is
not modelled. -/
def getFileMakerToken (serverUrl fileName : String) (outcome : FetchOutcome) : Envelope :=
  match makeFileMakerRequest outcome with
  | none => tokenInvalidEnvelope serverUrl fileName
  | some j =>
    if jsFalsy j || !(isTokenResponse j) then tokenInvalidEnvelope serverUrl fileName
    else
      match msgCode j with
      | .error _ => tokenApiErrorEnvelope serverUrl fileName
      | .ok c =>
        if jsStrictNe c "0" then
          match msgMessage j with
          | .error _ => tokenApiErrorEnvelope serverUrl fileName
          | .ok m =>
            { success := false, data := .undefined,
              error := some { type := .FILEMAKER_ERROR, message := m,
                              details := [("code", c),
                                          ("url", .str (sessionsUrl serverUrl fileName))] } }
        else
          match respToken j with
          | .error _ => tokenApiErrorEnvelope serverUrl fileName
          | .ok t => { success := true, data := .obj [("token", t)], error := none }

/-- Exceptions the token-release operation propagates to its caller. -/
inductive ThrownError where
  | netError (emsg : String)
  | httpStatus (status : Nat)
  | decodeError (emsg : String)
  | typeError
  | fmError (message : JsVal)

/-- Token release (`abandonFileMakerToken`, src/unnamed/part_001 lines
233-259): DELETEs the token-scoped sessions endpoint with a direct `fetch`;
every failure (rejection, non-2xx status, decode failure, property-access
TypeError, non-zero embedded code) is rethrown out of the catch block; a
code-`"0"` reply returns `()` with no payload. -/
def abandonFileMakerToken (serverUrl fileName token : String)
    (outcome : FetchOutcome) : Except ThrownError Unit :=
  match outcome with
  | .netError emsg => .error (.netError emsg)
  | .reply status body =>
    if !httpOk status then .error (.httpStatus status)
    else
      match body with
      | .error emsg => .error (.decodeError emsg)
      | .ok j =>
        match msgCode j with
        | .error _ => .error .typeError
        | .ok c =>
          if jsStrictNe c "0" then
            match msgMessage j with
            | .error _ => .error .typeError
            | .ok m => .error (.fmError m)
          else .ok ()

/-- The `API_ERROR` envelope of `getLayoutMetaData`, carrying the caught
error's message. -/
def metaApiErrorEnvelope (fileName layoutName emsg : String) : Envelope :=
  { success := false, data := .undefined,
    error := some { type := .API_ERROR,
                    message := .str emsg,
                    details := [("fileName", .str fileName),
                                ("layoutName", .str layoutName),
                                ("originalError", .str emsg)] } }

/-- Layout metadata (`getLayoutMetaData`, src/unnamed/part_001 lines
264-327): GETs the layout endpoint with a direct `fetch` (not the transport
helper); a rejection, non-2xx status (thrown with the HTTP-status message),
decode failure or property-access TypeError is caught as `API_ERROR`; a
non-zero embedded code is `FILEMAKER_ERROR`; otherwise success with the whole
decoded body as payload. -/
def getLayoutMetaData (serverUrl fileName layoutName token : String)
    (outcome : FetchOutcome) : Envelope :=
  match outcome with
  | .netError emsg => metaApiErrorEnvelope fileName layoutName emsg
  | .reply status body =>
    if !httpOk status then
      metaApiErrorEnvelope fileName layoutName ("HTTPエラー! ステータス: " ++ toString status)
    else
      match body with
      | .error emsg => metaApiErrorEnvelope fileName layoutName emsg
      | .ok j =>
        match msgCode j with
        | .error _ => metaApiErrorEnvelope fileName layoutName typeErrorMessage
        | .ok c =>
          if jsStrictNe c "0" then
            match msgMessage j with
            | .error _ => metaApiErrorEnvelope fileName layoutName typeErrorMessage
            | .ok m =>
              { success := false, data := .undefined,
                error := some { type := .FILEMAKER_ERROR, message := m,
                                details := [("code", c),
                                            ("fileName", .str fileName),
                                            ("layoutName", .str layoutName)] } }
          else { success := true, data := j, error := none }

/-- The `INVALID_RESPONSE` envelope of `findRecords`. -/
def findInvalidEnvelope (fileName layoutName : String) : Envelope :=
  { success := false, data := .undefined,
    error := some { type := .INVALID_RESPONSE,
                    message := .str invalidResponseMessage,
                    details := [("fileName", .str fileName),
                                ("layoutName", .str layoutName)] } }

/-- The `API_ERROR` envelope of `findRecords` for a caught exception. -/
def findApiErrorEnvelope (fileName layoutName : String) : Envelope :=
  { success := false, data := .undefined,
    error := some { type := .API_ERROR,
                    message := .str typeErrorMessage,
                    details := [("fileName", .str fileName),
                                ("layoutName", .str layoutName),
                                ("originalError", .str typeErrorMessage)] } }

/-- Record search (`findRecords`, src/unnamed/part_001 lines 332-397): POSTs
to the find endpoint through `makeFileMakerRequest`; a falsy reply is
`INVALID_RESPONSE`; a non-zero embedded code is `FILEMAKER_ERROR` with the
server's code and message; a thrown exception is `API_ERROR`; otherwise
success with `response.data` as payload. -/
def findRecords (serverUrl fieldName searchText token fileName layoutName : String)
    (outcome : FetchOutcome) : Envelope :=
  match makeFileMakerRequest outcome with
  | none => findInvalidEnvelope fileName layoutName
  | some j =>
    if jsFalsy j then findInvalidEnvelope fileName layoutName
    else
      match msgCode j with
      | .error _ => findApiErrorEnvelope fileName layoutName
      | .ok c =>
        if jsStrictNe c "0" then
          match msgMessage j with
          | .error _ => findApiErrorEnvelope fileName layoutName
          | .ok m =>
            { success := false, data := .undefined,
              error := some { type := .FILEMAKER_ERROR, message := m,
                              details := [("code", c),
                                          ("fileName", .str fileName),
                                          ("layoutName", .str layoutName)] } }
        else
          match respData j with
          | .error _ => findApiErrorEnvelope fileName layoutName
          | .ok d => { success := true, data := d, error := none }

/-- Body `findRecords` hands to the server: it passes `fieldName` and
`searchText` and no body of its own to `makeFileMakerRequest`, whose
query-building step decides what is sent. -/
def findRecordsRequestBody (serverUrl fieldName searchText fileName layoutName : String) :
    Option JsVal :=
  buildRequestBody (some fieldName) (some searchText)
    (findUrl serverUrl fileName layoutName) none

end FM

namespace FM.Part000

/-- Query document the `findRecords` of src/unnamed/part_000 (lines 103-118)
serialises as its request body: it is built unconditionally, before the call,
with the same equality prefix. -/
def findRecordsBody (fieldName searchText : String) : FM.JsVal :=
  .obj [("query", .arr [.obj [(fieldName, .str ("=" ++ searchText))]])]

end FM.Part000

namespace FM

/-- A JavaScript object literal as built by the metadata tool handler: keys
bound to runtime values, which may be `undefined`. -/
def jsObjGet : List (String × JsVal) → String → JsVal
  | [], _ => .undefined
  | (k, v) :: rest, key => if k == key then v else jsObjGet rest key

/-- Field-descriptor projection of the get-layout-metadata tool handler
(src/unnamed/part_001 lines 539-548): each descriptor object is replaced by
an object literal carrying exactly its `name`, `type`, `displayType`,
`result`, `valueList` and `global` members. -/
def reduceField (f : List (String × JsVal)) : List (String × JsVal) :=
  [("name", jsObjGet f "name"),
   ("type", jsObjGet f "type"),
   ("displayType", jsObjGet f "displayType"),
   ("result", jsObjGet f "result"),
   ("valueList", jsObjGet f "valueList"),
   ("global", jsObjGet f "global")]

/-- The `fieldInfo` map of the get-layout-metadata tool handler, applied to a
whole descriptor list. -/
def reduceFieldInfo (fields : List (List (String × JsVal))) : List (List (String × JsVal)) :=
  fields.map reduceField

/-- Transport failures in the sense of the spec: the `fetch` promise rejects
(network error), the HTTP status is outside the 2xx range, or the body fails
to decode as JSON. -/
def isTransportFailure : FetchOutcome → Bool
  | .netError _ => true
  | .reply _ (.error _) => true
  | .reply status (.ok _) => !httpOk status

/-- A `FILEMAKER_ERROR` failure envelope carrying the server's message and,
among its details, the server's code. -/
def isFileMakerError (e : Envelope) (c m : JsVal) : Prop :=
  e.success = false ∧
    ∃ i, e.error = some i ∧ i.type = .FILEMAKER_ERROR ∧ i.message = m ∧
      ("code", c) ∈ i.details

/-- A realistic failed-login reply: HTTP body with an empty `response` object
(no token) and a non-zero embedded code, as the FileMaker Data API sends on
rejected credentials. -/
def failedLoginReply : JsVal :=
  .obj [("response", .obj []),
        ("messages", .arr [.obj [("code", .str "212"), ("message", .str "Invalid user account or password")]])]

/-- A token-shaped reply that nevertheless carries a non-zero embedded
code. -/
def codedTokenReply : JsVal :=
  .obj [("response", .obj [("token", .str "abc")]),
        ("messages", .arr [.obj [("code", .str "212"), ("message", .str "Auth failed")]])]

/-- A data-style error reply with a non-zero embedded code. -/
def codedDataReply : JsVal :=
  .obj [("messages", .arr [.obj [("code", .str "401"), ("message", .str "No records match the request")]])]

/-- A successful find reply whose `response.data` is the spec's one-record
stub list. -/
def findStubReply : JsVal :=
  .obj [("response", .obj [("data", .arr [.obj [("id", .num 1)]])]),
        ("messages", .arr [.obj [("code", .str "0"), ("message", .str "OK")]])]

/-- A code-`"0"` reply whose `response` object lacks the `data` member. -/
def datalessOkReply : JsVal :=
  .obj [("response", .obj []),
        ("messages", .arr [.obj [("code", .str "0"), ("message", .str "OK")]])]

/-- A code-`"0"` release reply with no payload. -/
def releaseOkReply : JsVal :=
  .obj [("messages", .arr [.obj [("code", .str "0"), ("message", .str "OK")]])]

/-- A token-shaped reply with no `messages` member: evaluating
`messages[0].code` on it throws a TypeError inside the try block. -/
def messageLessTokenReply : JsVal :=
  .obj [("response", .obj [("token", .str "abc")])]

namespace SrcIndex

/-- Token acquisition of the second snapshot in src/src/index.ts (lines
453-506): identical to the part_001 operation except that its guard is only
`if (!response)` — there is no `isTokenResponse` structural check — so a
present but non-token-shaped reply falls through to the embedded-code check
and, on code `"0"`, to `response.response.token`, which may be undefined or
throw. -/
def getFileMakerToken (serverUrl fileName : String) (outcome : FetchOutcome) : Envelope :=
  match makeFileMakerRequest outcome with
  | none => tokenInvalidEnvelope serverUrl fileName
  | some j =>
    if jsFalsy j then tokenInvalidEnvelope serverUrl fileName
    else
      match msgCode j with
      | .error _ => tokenApiErrorEnvelope serverUrl fileName
      | .ok c =>
        if jsStrictNe c "0" then
          match msgMessage j with
          | .error _ => tokenApiErrorEnvelope serverUrl fileName
          | .ok m =>
            { success := false, data := .undefined,
              error := some { type := .FILEMAKER_ERROR, message := m,
                              details := [("code", c),
                                          ("url", .str (sessionsUrl serverUrl fileName))] } }
        else
          match respToken j with
          | .error _ => tokenApiErrorEnvelope serverUrl fileName
          | .ok t => { success := true, data := .obj [("token", t)], error := none }

end SrcIndex

/-!  Helper lemmas shared by the claim theorems. -/

theorem leadsWith_self : ∀ l : List Char, leadsWith l l = true
  | [] => rfl
  | c :: cs => by simp [leadsWith, leadsWith_self cs]

theorem occursIn_of_leadsWith (pat l : List Char) (h : leadsWith pat l = true) :
    occursIn pat l = true := by
  cases l with
  | nil => simpa [occursIn] using h
  | cons c cs => simp [occursIn, h]

theorem occursIn_append (pat : List Char) :
    ∀ (a l : List Char), occursIn pat l = true → occursIn pat (a ++ l) = true := by
  intro a
  induction a with
  | nil => intro l h; simpa using h
  | cons c cs ih => intro l h; simp [occursIn, ih l h]

theorem stringContains_append (a : String) :
    stringContains (a ++ "/_find") "/_find" = true := by
  unfold stringContains
  rw [String.data_append]
  exact occursIn_append _ _ _ (occursIn_of_leadsWith _ _ (leadsWith_self _))

theorem stringContains_findUrl (su fn ln : String) :
    stringContains (findUrl su fn ln) "/_find" = true := by
  unfold findUrl
  exact stringContains_append _

theorem findRecordsRequestBody_nonempty (su f s fn ln : String)
    (hf : f ≠ "") (hs : s ≠ "") :
    findRecordsRequestBody su f s fn ln = some (buildFindQuery f s) := by
  have hf' : (f != "") = true := bne_iff_ne.mpr hf
  have hs' : (s != "") = true := bne_iff_ne.mpr hs
  simp [findRecordsRequestBody, buildRequestBody, hf', hs', stringContains_findUrl]

theorem jsFalsy_of_isTokenResponse : ∀ j : JsVal, isTokenResponse j = true → jsFalsy j = false
  | .obj _, _ => rfl
  | .undefined, h => nomatch h
  | .null, h => nomatch h
  | .bool _, h => nomatch h
  | .num _, h => nomatch h
  | .str _, h => nomatch h
  | .arr _, h => nomatch h

theorem jsFalsy_of_msgCode_ok : ∀ (j c : JsVal), msgCode j = .ok c → jsFalsy j = false := by
  intro j c h
  cases j with
  | obj fs => rfl
  | arr es => rfl
  | undefined => simp [msgCode, msgs0, getProp] at h
  | null => simp [msgCode, msgs0, getProp] at h
  | bool b => simp [msgCode, msgs0, getProp, getIndex] at h
  | num n => simp [msgCode, msgs0, getProp, getIndex] at h
  | str s => simp [msgCode, msgs0, getProp, getIndex] at h

theorem ne_undef_of_msgCode_ok (j c : JsVal) (h : msgCode j = .ok c) : j ≠ .undefined := by
  intro hj
  rw [hj] at h
  simp [msgCode, msgs0, getProp] at h

theorem makeFileMakerRequest_not_ok (status : Nat) (body : Except String JsVal)
    (h : httpOk status = false) : makeFileMakerRequest (.reply status body) = none := by
  simp [makeFileMakerRequest, h]

theorem findRecords_code0 (su f s tok fn ln : String) (o : FetchOutcome) (j d : JsVal)
    (hresp : makeFileMakerRequest o = some j)
    (hcode : msgCode j = .ok (.str "0"))
    (hdata : respData j = .ok d) :
    findRecords su f s tok fn ln o = { success := true, data := d, error := none } := by
  have hf := jsFalsy_of_msgCode_ok j _ hcode
  simp [findRecords, hresp, hf, hcode, hdata, jsStrictNe]

theorem getFileMakerToken_shape (su fn : String) (o : FetchOutcome) :
    (∃ t, getFileMakerToken su fn o = { success := true, data := .obj [("token", t)], error := none }) ∨
    ((getFileMakerToken su fn o).success = false ∧
      (getFileMakerToken su fn o).error.isSome = true) := by
  cases hmk : makeFileMakerRequest o with
  | none => right; constructor <;> simp [getFileMakerToken, hmk, tokenInvalidEnvelope]
  | some j =>
    cases hg : (jsFalsy j || !isTokenResponse j) with
    | true => right; constructor <;> simp [getFileMakerToken, hmk, hg, tokenInvalidEnvelope]
    | false =>
      cases hc : msgCode j with
      | error e =>
        right; constructor <;> simp [getFileMakerToken, hmk, hg, hc, tokenApiErrorEnvelope]
      | ok c =>
        cases hne : jsStrictNe c "0" with
        | true =>
          cases hm : msgMessage j with
          | error e =>
            right; constructor <;>
              simp [getFileMakerToken, hmk, hg, hc, hne, hm, tokenApiErrorEnvelope]
          | ok m =>
            right; constructor <;> simp [getFileMakerToken, hmk, hg, hc, hne, hm]
        | false =>
          cases ht : respToken j with
          | error e =>
            right; constructor <;>
              simp [getFileMakerToken, hmk, hg, hc, hne, ht, tokenApiErrorEnvelope]
          | ok t =>
            left; exact ⟨t, by simp [getFileMakerToken, hmk, hg, hc, hne, ht]⟩

theorem findRecords_shape (su f s tok fn ln : String) (o : FetchOutcome) :
    (∃ d, findRecords su f s tok fn ln o = { success := true, data := d, error := none }) ∨
    ((findRecords su f s tok fn ln o).success = false ∧
      (findRecords su f s tok fn ln o).error.isSome = true) := by
  cases hmk : makeFileMakerRequest o with
  | none => right; constructor <;> simp [findRecords, hmk, findInvalidEnvelope]
  | some j =>
    cases hg : jsFalsy j with
    | true => right; constructor <;> simp [findRecords, hmk, hg, findInvalidEnvelope]
    | false =>
      cases hc : msgCode j with
      | error e => right; constructor <;> simp [findRecords, hmk, hg, hc, findApiErrorEnvelope]
      | ok c =>
        cases hne : jsStrictNe c "0" with
        | true =>
          cases hm : msgMessage j with
          | error e =>
            right; constructor <;> simp [findRecords, hmk, hg, hc, hne, hm, findApiErrorEnvelope]
          | ok m => right; constructor <;> simp [findRecords, hmk, hg, hc, hne, hm]
        | false =>
          cases hd : respData j with
          | error e =>
            right; constructor <;> simp [findRecords, hmk, hg, hc, hne, hd, findApiErrorEnvelope]
          | ok d => left; exact ⟨d, by simp [findRecords, hmk, hg, hc, hne, hd]⟩

theorem getLayoutMetaData_shape (su fn ln tok : String) (o : FetchOutcome) :
    (∃ j c, getLayoutMetaData su fn ln tok o = { success := true, data := j, error := none } ∧
        msgCode j = .ok c) ∨
    ((getLayoutMetaData su fn ln tok o).success = false ∧
      (getLayoutMetaData su fn ln tok o).error.isSome = true) := by
  cases o with
  | netError emsg => right; exact ⟨rfl, rfl⟩
  | reply status body =>
    cases hok : httpOk status with
    | false => right; constructor <;> simp [getLayoutMetaData, hok, metaApiErrorEnvelope]
    | true =>
      cases body with
      | error emsg => right; constructor <;> simp [getLayoutMetaData, hok, metaApiErrorEnvelope]
      | ok j =>
        cases hc : msgCode j with
        | error e =>
          right; constructor <;> simp [getLayoutMetaData, hok, hc, metaApiErrorEnvelope]
        | ok c =>
          cases hne : jsStrictNe c "0" with
          | true =>
            cases hm : msgMessage j with
            | error e =>
              right; constructor <;> simp [getLayoutMetaData, hok, hc, hne, hm, metaApiErrorEnvelope]
            | ok m => right; constructor <;> simp [getLayoutMetaData, hok, hc, hne, hm]
          | false =>
            left; exact ⟨j, c, by simp [getLayoutMetaData, hok, hc, hne], hc⟩

/-!  Claim theorems. -/

/-- C1 (counterexample): the three-way classification is NOT applied
identically by every operation.  On a realistic failed-login reply (HTTP
200, embedded code `"212"`, empty `response` object), `getFileMakerToken`
returns `INVALID_RESPONSE` — its token-shape guard runs before the embedded
code is ever inspected — although the embedded `messages[0].code` is present
and non-zero, where the claim demands `FILEMAKER_ERROR` carrying that
code. -/
theorem c1_counterexample :
    msgCode failedLoginReply = .ok (.str "212") ∧
    jsStrictNe (.str "212") "0" = true ∧
    errType (getFileMakerToken "https://fm.example" "db"
        (.reply 200 (.ok failedLoginReply))) = some .INVALID_RESPONSE ∧
    errType (getFileMakerToken "https://fm.example" "db"
        (.reply 200 (.ok failedLoginReply))) ≠ some .FILEMAKER_ERROR := by
  have h3 : errType (getFileMakerToken "https://fm.example" "db"
      (.reply 200 (.ok failedLoginReply))) = some .INVALID_RESPONSE := rfl
  refine ⟨rfl, rfl, h3, ?_⟩
  rw [h3]
  simp

/-- C1 (amended): each networked operation classifies a present response
with a successfully evaluating non-`"0"` embedded `messages[0].code` as
`FILEMAKER_ERROR` carrying exactly that code and the server's message — for
`getFileMakerToken` only once the token-shape guard has passed, since for
that operation the `INVALID_RESPONSE` shape check takes precedence over the
code check; an absent response yields `INVALID_RESPONSE` for the two
operations routed through the transport helper; a thrown exception (here
the TypeError raised by evaluating `messages[0].code` on an ill-shaped
reply) yields `API_ERROR` in every operation; and a code-`"0"` reply yields
success with the operation-specific payload — the token and the record list
extracted from `response.response` for `getFileMakerToken` and
`findRecords`, and the whole decoded body for `getLayoutMetaData`. -/
theorem c1_amended :
    (∀ su fn o j c m, makeFileMakerRequest o = some j → isTokenResponse j = true →
        msgCode j = .ok c → jsStrictNe c "0" = true → msgMessage j = .ok m →
        getFileMakerToken su fn o =
          { success := false, data := .undefined,
            error := some { type := .FILEMAKER_ERROR, message := m,
                            details := [("code", c), ("url", .str (sessionsUrl su fn))] } }) ∧
    (∀ su f s tok fn ln o j c m, makeFileMakerRequest o = some j →
        msgCode j = .ok c → jsStrictNe c "0" = true → msgMessage j = .ok m →
        findRecords su f s tok fn ln o =
          { success := false, data := .undefined,
            error := some { type := .FILEMAKER_ERROR, message := m,
                            details := [("code", c), ("fileName", .str fn),
                                        ("layoutName", .str ln)] } }) ∧
    (∀ su fn ln tok status j c m, httpOk status = true →
        msgCode j = .ok c → jsStrictNe c "0" = true → msgMessage j = .ok m →
        getLayoutMetaData su fn ln tok (.reply status (.ok j)) =
          { success := false, data := .undefined,
            error := some { type := .FILEMAKER_ERROR, message := m,
                            details := [("code", c), ("fileName", .str fn),
                                        ("layoutName", .str ln)] } }) ∧
    (∀ su fn o, makeFileMakerRequest o = none →
        getFileMakerToken su fn o = tokenInvalidEnvelope su fn ∧
        ∀ f s tok ln, findRecords su f s tok fn ln o = findInvalidEnvelope fn ln) ∧
    (∀ su fn o j, makeFileMakerRequest o = some j → isTokenResponse j = true →
        msgCode j = .error () →
        getFileMakerToken su fn o = tokenApiErrorEnvelope su fn) ∧
    (∀ su f s tok fn ln o j, makeFileMakerRequest o = some j → jsFalsy j = false →
        msgCode j = .error () →
        findRecords su f s tok fn ln o = findApiErrorEnvelope fn ln) ∧
    (∀ su fn ln tok status j, httpOk status = true → msgCode j = .error () →
        getLayoutMetaData su fn ln tok (.reply status (.ok j)) =
          metaApiErrorEnvelope fn ln typeErrorMessage) ∧
    (∀ su fn o j t, makeFileMakerRequest o = some j → isTokenResponse j = true →
        msgCode j = .ok (.str "0") → respToken j = .ok t →
        getFileMakerToken su fn o =
          { success := true, data := .obj [("token", t)], error := none }) ∧
    (∀ su f s tok fn ln o j d, makeFileMakerRequest o = some j →
        msgCode j = .ok (.str "0") → respData j = .ok d →
        findRecords su f s tok fn ln o =
          { success := true, data := d, error := none }) ∧
    (∀ su fn ln tok status j, httpOk status = true → msgCode j = .ok (.str "0") →
        getLayoutMetaData su fn ln tok (.reply status (.ok j)) =
          { success := true, data := j, error := none }) := by
  refine ⟨?_, ?_, ?_, ?_, ?_, ?_, ?_, ?_, ?_, ?_⟩
  · intro su fn o j c m hresp htok hc hne hm
    have hf := jsFalsy_of_isTokenResponse j htok
    simp [getFileMakerToken, hresp, htok, hf, hc, hne, hm]
  · intro su f s tok fn ln o j c m hresp hc hne hm
    have hf := jsFalsy_of_msgCode_ok j c hc
    simp [findRecords, hresp, hf, hc, hne, hm]
  · intro su fn ln tok status j c m hok hc hne hm
    simp [getLayoutMetaData, hok, hc, hne, hm]
  · intro su fn o hnone
    exact ⟨by simp [getFileMakerToken, hnone],
           fun f s tok ln => by simp [findRecords, hnone]⟩
  · intro su fn o j hresp htok hc
    have hf := jsFalsy_of_isTokenResponse j htok
    simp [getFileMakerToken, hresp, htok, hf, hc]
  · intro su f s tok fn ln o j hresp hfal hc
    simp [findRecords, hresp, hfal, hc]
  · intro su fn ln tok status j hok hc
    simp [getLayoutMetaData, hok, hc]
  · intro su fn o j t hresp htok hc ht
    have hf := jsFalsy_of_isTokenResponse j htok
    simp [getFileMakerToken, hresp, htok, hf, hc, ht, jsStrictNe]
  · intro su f s tok fn ln o j d hresp hc hd
    exact findRecords_code0 su f s tok fn ln o j d hresp hc hd
  · intro su fn ln tok status j hok hc
    simp [getLayoutMetaData, hok, hc, jsStrictNe]

/-- C1 (witness): the amended classification evaluated on concrete replies:
a token-shaped reply with code `"212"` makes `getFileMakerToken` return
`FILEMAKER_ERROR` with that code; a data reply with code `"401"` does the
same for `findRecords` and `getLayoutMetaData`; a token-shaped reply with
no `messages` member throws and is classified `API_ERROR`; and a code-`"0"`
reply makes `getLayoutMetaData` succeed with the whole decoded body. -/
theorem c1_amended_witness :
    makeFileMakerRequest (.reply 200 (.ok codedTokenReply)) = some codedTokenReply ∧
    isTokenResponse codedTokenReply = true ∧
    msgCode codedTokenReply = .ok (.str "212") ∧
    jsStrictNe (.str "212") "0" = true ∧
    msgMessage codedTokenReply = .ok (.str "Auth failed") ∧
    getFileMakerToken "https://fm.example" "db" (.reply 200 (.ok codedTokenReply)) =
      { success := false, data := .undefined,
        error := some { type := .FILEMAKER_ERROR, message := .str "Auth failed",
                        details := [("code", .str "212"),
                                    ("url", .str (sessionsUrl "https://fm.example" "db"))] } } ∧
    findRecords "https://fm.example" "name" "Tanaka" "tok" "db" "ly"
        (.reply 200 (.ok codedDataReply)) =
      { success := false, data := .undefined,
        error := some { type := .FILEMAKER_ERROR,
                        message := .str "No records match the request",
                        details := [("code", .str "401"), ("fileName", .str "db"),
                                    ("layoutName", .str "ly")] } } ∧
    getLayoutMetaData "https://fm.example" "db" "ly" "tok"
        (.reply 200 (.ok codedDataReply)) =
      { success := false, data := .undefined,
        error := some { type := .FILEMAKER_ERROR,
                        message := .str "No records match the request",
                        details := [("code", .str "401"), ("fileName", .str "db"),
                                    ("layoutName", .str "ly")] } } ∧
    isTokenResponse messageLessTokenReply = true ∧
    msgCode messageLessTokenReply = .error () ∧
    getFileMakerToken "https://fm.example" "db"
        (.reply 200 (.ok messageLessTokenReply)) =
      tokenApiErrorEnvelope "https://fm.example" "db" ∧
    msgCode findStubReply = .ok (.str "0") ∧
    getLayoutMetaData "https://fm.example" "db" "ly" "tok"
        (.reply 200 (.ok findStubReply)) =
      { success := true, data := findStubReply, error := none } :=
  ⟨rfl, rfl, rfl, rfl, rfl,
   c1_amended.1 "https://fm.example" "db" (.reply 200 (.ok codedTokenReply))
     codedTokenReply (.str "212") (.str "Auth failed") rfl rfl rfl rfl rfl,
   c1_amended.2.1 "https://fm.example" "name" "Tanaka" "tok" "db" "ly"
     (.reply 200 (.ok codedDataReply)) codedDataReply (.str "401")
     (.str "No records match the request") rfl rfl rfl rfl,
   c1_amended.2.2.1 "https://fm.example" "db" "ly" "tok" 200 codedDataReply
     (.str "401") (.str "No records match the request") rfl rfl rfl rfl,
   rfl, rfl,
   c1_amended.2.2.2.2.1 "https://fm.example" "db"
     (.reply 200 (.ok messageLessTokenReply)) messageLessTokenReply rfl rfl rfl,
   rfl,
   c1_amended.2.2.2.2.2.2.2.2.2 "https://fm.example" "db" "ly" "tok" 200
     findStubReply rfl rfl⟩

/-- C2: for every transport failure — a rejected fetch, a non-2xx HTTP
status, or a JSON-decode failure — each of `getFileMakerToken`,
`findRecords` and `getLayoutMetaData` returns a failure envelope whose
error type is `INVALID_RESPONSE` or `API_ERROR`.  The operations are total
Lean functions into `Envelope`, so none of them throws past its boundary. -/
theorem c2_transport_failures (su f s tok fn ln : String) (o : FetchOutcome)
    (h : isTransportFailure o = true) :
    ((getFileMakerToken su fn o).success = false ∧
      (errType (getFileMakerToken su fn o) = some .INVALID_RESPONSE ∨
       errType (getFileMakerToken su fn o) = some .API_ERROR)) ∧
    ((findRecords su f s tok fn ln o).success = false ∧
      (errType (findRecords su f s tok fn ln o) = some .INVALID_RESPONSE ∨
       errType (findRecords su f s tok fn ln o) = some .API_ERROR)) ∧
    ((getLayoutMetaData su fn ln tok o).success = false ∧
      (errType (getLayoutMetaData su fn ln tok o) = some .INVALID_RESPONSE ∨
       errType (getLayoutMetaData su fn ln tok o) = some .API_ERROR)) := by
  have hmk : makeFileMakerRequest o = none := by
    cases o with
    | netError e => rfl
    | reply status body =>
      cases body with
      | error e => simp [makeFileMakerRequest]
      | ok j =>
        have hok : httpOk status = false := by simpa [isTransportFailure] using h
        simp [makeFileMakerRequest, hok]
  have hmeta : ∃ em, getLayoutMetaData su fn ln tok o = metaApiErrorEnvelope fn ln em := by
    cases o with
    | netError e => exact ⟨e, rfl⟩
    | reply status body =>
      cases hok : httpOk status with
      | false =>
        exact ⟨"HTTPエラー! ステータス: " ++ toString status, by simp [getLayoutMetaData, hok]⟩
      | true =>
        cases body with
        | error e => exact ⟨e, by simp [getLayoutMetaData, hok]⟩
        | ok j => simp [isTransportFailure, hok] at h
  obtain ⟨em, hm⟩ := hmeta
  refine ⟨⟨?_, Or.inl ?_⟩, ⟨?_, Or.inl ?_⟩, ⟨?_, Or.inr ?_⟩⟩
  · simp [getFileMakerToken, hmk, tokenInvalidEnvelope]
  · simp [getFileMakerToken, hmk, errType, tokenInvalidEnvelope]
  · simp [findRecords, hmk, findInvalidEnvelope]
  · simp [findRecords, hmk, errType, findInvalidEnvelope]
  · rw [hm]
    rfl
  · rw [hm]
    rfl

/-- C2 (witness): the transport-failure classification evaluated on a
rejected fetch. -/
theorem c2_transport_failures_witness :
    isTransportFailure (.netError "fetch failed") = true ∧
    (((getFileMakerToken "https://fm.example" "db" (.netError "fetch failed")).success = false ∧
      (errType (getFileMakerToken "https://fm.example" "db" (.netError "fetch failed")) =
          some .INVALID_RESPONSE ∨
       errType (getFileMakerToken "https://fm.example" "db" (.netError "fetch failed")) =
          some .API_ERROR)) ∧
    ((findRecords "https://fm.example" "name" "Tanaka" "tok" "db" "ly"
        (.netError "fetch failed")).success = false ∧
      (errType (findRecords "https://fm.example" "name" "Tanaka" "tok" "db" "ly"
          (.netError "fetch failed")) = some .INVALID_RESPONSE ∨
       errType (findRecords "https://fm.example" "name" "Tanaka" "tok" "db" "ly"
          (.netError "fetch failed")) = some .API_ERROR)) ∧
    ((getLayoutMetaData "https://fm.example" "db" "ly" "tok"
        (.netError "fetch failed")).success = false ∧
      (errType (getLayoutMetaData "https://fm.example" "db" "ly" "tok"
          (.netError "fetch failed")) = some .INVALID_RESPONSE ∨
       errType (getLayoutMetaData "https://fm.example" "db" "ly" "tok"
          (.netError "fetch failed")) = some .API_ERROR))) :=
  ⟨rfl, c2_transport_failures "https://fm.example" "name" "Tanaka" "tok" "db" "ly"
     (.netError "fetch failed") rfl⟩

/-- C3: the token-release operation propagates every failure — a rejected
fetch, a non-2xx status, a decode failure, or a non-zero embedded code all
produce a thrown error — and a code-`"0"` reply returns normally with no
payload.  The envelope-returning operations, by contrast, are total
functions into `Envelope` (see the shape lemmas), so release is the sole
operation with a propagating error channel. -/
theorem c3_abandon_propagates :
    (∀ su fn tok emsg,
        abandonFileMakerToken su fn tok (.netError emsg) = .error (.netError emsg)) ∧
    (∀ su fn tok status body, httpOk status = false →
        abandonFileMakerToken su fn tok (.reply status body) = .error (.httpStatus status)) ∧
    (∀ su fn tok status emsg, httpOk status = true →
        abandonFileMakerToken su fn tok (.reply status (.error emsg)) =
          .error (.decodeError emsg)) ∧
    (∀ su fn tok status j c m, httpOk status = true → msgCode j = .ok c →
        jsStrictNe c "0" = true → msgMessage j = .ok m →
        abandonFileMakerToken su fn tok (.reply status (.ok j)) = .error (.fmError m)) ∧
    (∀ su fn tok status j, httpOk status = true → msgCode j = .ok (.str "0") →
        abandonFileMakerToken su fn tok (.reply status (.ok j)) = .ok ()) := by
  refine ⟨fun su fn tok emsg => rfl, ?_, ?_, ?_, ?_⟩
  · intro su fn tok status body h
    simp [abandonFileMakerToken, h]
  · intro su fn tok status emsg h
    simp [abandonFileMakerToken, h]
  · intro su fn tok status j c m h hc hne hm
    simp [abandonFileMakerToken, h, hc, hne, hm]
  · intro su fn tok status j h hc
    simp [abandonFileMakerToken, h, hc, jsStrictNe]

/-- C3 (witness): release evaluated on a 500 status (raises) and on a
code-`"0"` reply (returns normally). -/
theorem c3_abandon_propagates_witness :
    httpOk 500 = false ∧
    abandonFileMakerToken "https://fm.example" "db" "tok" (.reply 500 (.ok .null)) =
      .error (.httpStatus 500) ∧
    httpOk 200 = true ∧
    msgCode releaseOkReply = .ok (.str "0") ∧
    abandonFileMakerToken "https://fm.example" "db" "tok"
      (.reply 200 (.ok releaseOkReply)) = .ok () :=
  ⟨rfl,
   c3_abandon_propagates.2.1 "https://fm.example" "db" "tok" 500 (.ok .null) rfl,
   rfl, rfl,
   c3_abandon_propagates.2.2.2.2 "https://fm.example" "db" "tok" 200 releaseOkReply rfl rfl⟩

/-- C4 (counterexample): the claim's universal quantification fails on the
variant routed through the transport helper.  With field `"name"` and an
EMPTY search text, the truthiness guard of the query-building step is false,
so `findRecords` sends no body at all — not the claimed document
`query [name becomes the equality prefix alone]`. -/
theorem c4_counterexample :
    findRecordsRequestBody "https://fm.example" "name" "" "db" "layout" = none ∧
    findRecordsRequestBody "https://fm.example" "name" "" "db" "layout" ≠
      some (buildFindQuery "name" "") :=
  ⟨rfl, fun h => Option.noConfusion h⟩

/-- C4 (amended): whenever both the field name and the search text are
nonempty, the find operation builds exactly the single-condition query
document binding the field to the `=`-prefixed text; in particular field
`"name"` with text `"Tanaka"` produces exactly the document with the one
pair `name` to `=Tanaka`.  (With an empty field or text the helper-routed
variant sends no body; the inline variant of part_000 builds the document
unconditionally.) -/
theorem c4_amended :
    (∀ su f s fn ln, f ≠ "" → s ≠ "" →
        findRecordsRequestBody su f s fn ln =
          some (.obj [("query", .arr [.obj [(f, .str ("=" ++ s))]])])) ∧
    (∀ su fn ln, findRecordsRequestBody su "name" "Tanaka" fn ln =
        some (.obj [("query", .arr [.obj [("name", .str "=Tanaka")]])])) ∧
    (∀ f s, Part000.findRecordsBody f s =
        .obj [("query", .arr [.obj [(f, .str ("=" ++ s))]])]) := by
  refine ⟨?_, ?_, fun f s => rfl⟩
  · intro su f s fn ln hf hs
    exact findRecordsRequestBody_nonempty su f s fn ln hf hs
  · intro su fn ln
    exact findRecordsRequestBody_nonempty su "name" "Tanaka" fn ln
      (by decide) (by decide)

/-- C4 (witness): the amended statement evaluated at field `"name"`, text
`"Tanaka"`. -/
theorem c4_amended_witness :
    ("name" : String) ≠ "" ∧ ("Tanaka" : String) ≠ "" ∧
    findRecordsRequestBody "https://fm.example" "name" "Tanaka" "db" "layout" =
      some (.obj [("query", .arr [.obj [("name", .str "=Tanaka")]])]) :=
  ⟨by decide, by decide,
   c4_amended.1 "https://fm.example" "name" "Tanaka" "db" "layout"
     (by decide) (by decide)⟩

/-- C5: on a reply whose embedded code is `"0"`, `findRecords` returns
success carrying exactly the evaluated `response.data` value, unmodified —
no reshaping, filtering or pagination. -/
theorem c5_find_passthrough (su f s tok fn ln : String) (o : FetchOutcome) (j d : JsVal)
    (hresp : makeFileMakerRequest o = some j)
    (hcode : msgCode j = .ok (.str "0"))
    (hdata : respData j = .ok d) :
    findRecords su f s tok fn ln o = { success := true, data := d, error := none } :=
  findRecords_code0 su f s tok fn ln o j d hresp hcode hdata

/-- C5 (witness): the spec's stub — a code-`"0"` reply with data list
holding the one record with id 1 — passes through unchanged. -/
theorem c5_find_passthrough_witness :
    makeFileMakerRequest (.reply 200 (.ok findStubReply)) = some findStubReply ∧
    msgCode findStubReply = .ok (.str "0") ∧
    respData findStubReply = .ok (.arr [.obj [("id", .num 1)]]) ∧
    findRecords "https://fm.example" "id" "1" "tok" "db" "ly"
        (.reply 200 (.ok findStubReply)) =
      { success := true, data := .arr [.obj [("id", .num 1)]], error := none } :=
  ⟨rfl, rfl, rfl,
   c5_find_passthrough "https://fm.example" "id" "1" "tok" "db" "ly"
     (.reply 200 (.ok findStubReply)) findStubReply (.arr [.obj [("id", .num 1)]])
     rfl rfl rfl⟩

/-- C6 (counterexample): the envelope invariant fails on `findRecords`.  A
code-`"0"` reply whose `response` object lacks the `data` member yields
`success := true` with an undefined payload — success without a payload. -/
theorem c6_counterexample :
    (findRecords "https://fm.example" "name" "Tanaka" "tok" "db" "ly"
        (.reply 200 (.ok datalessOkReply))).success = true ∧
    (findRecords "https://fm.example" "name" "Tanaka" "tok" "db" "ly"
        (.reply 200 (.ok datalessOkReply))).data = .undefined :=
  ⟨rfl, rfl⟩

/-- C6 (amended): the envelope invariant holds in full for
`getFileMakerToken` (success always carries the token object) and
`getLayoutMetaData` (success always carries the decoded body), and every
failure envelope of all three operations carries an error object; for
`findRecords`, success carries the evaluated `response.data`, which is a
payload whenever the server's code-`"0"` reply actually contains one — as
the wire contract requires — but is undefined when the reply omits it. -/
theorem c6_amended :
    (∀ su fn o,
        ((getFileMakerToken su fn o).success = true →
          (getFileMakerToken su fn o).data ≠ .undefined) ∧
        ((getFileMakerToken su fn o).success = false →
          (getFileMakerToken su fn o).error.isSome = true)) ∧
    (∀ su fn ln tok o,
        ((getLayoutMetaData su fn ln tok o).success = true →
          (getLayoutMetaData su fn ln tok o).data ≠ .undefined) ∧
        ((getLayoutMetaData su fn ln tok o).success = false →
          (getLayoutMetaData su fn ln tok o).error.isSome = true)) ∧
    (∀ su f s tok fn ln o,
        (findRecords su f s tok fn ln o).success = false →
          (findRecords su f s tok fn ln o).error.isSome = true) ∧
    (∀ su f s tok fn ln o j d, makeFileMakerRequest o = some j →
        msgCode j = .ok (.str "0") → respData j = .ok d → d ≠ .undefined →
        (findRecords su f s tok fn ln o).success = true ∧
          (findRecords su f s tok fn ln o).data ≠ .undefined) := by
  refine ⟨?_, ?_, ?_, ?_⟩
  · intro su fn o
    rcases getFileMakerToken_shape su fn o with ⟨t, ht⟩ | ⟨h1, h2⟩
    · rw [ht]
      exact ⟨fun _ h => JsVal.noConfusion h, fun h => nomatch h⟩
    · exact ⟨fun h => absurd h (by rw [h1]; simp), fun _ => h2⟩
  · intro su fn ln tok o
    rcases getLayoutMetaData_shape su fn ln tok o with ⟨j, c, hj, hc⟩ | ⟨h1, h2⟩
    · rw [hj]
      exact ⟨fun _ => ne_undef_of_msgCode_ok j c hc, fun h => nomatch h⟩
    · exact ⟨fun h => absurd h (by rw [h1]; simp), fun _ => h2⟩
  · intro su f s tok fn ln o
    rcases findRecords_shape su f s tok fn ln o with ⟨d, hd⟩ | ⟨h1, h2⟩
    · rw [hd]
      intro h
      exact absurd h (by simp)
    · exact fun _ => h2
  · intro su f s tok fn ln o j d hresp hcode hdata hne
    have hpass := findRecords_code0 su f s tok fn ln o j d hresp hcode hdata
    rw [hpass]
    exact ⟨rfl, hne⟩

/-- C6 (witness): the amended invariant evaluated on the stub find reply
(whose `response.data` is present) and on a rejected fetch. -/
theorem c6_amended_witness :
    makeFileMakerRequest (.reply 200 (.ok findStubReply)) = some findStubReply ∧
    msgCode findStubReply = .ok (.str "0") ∧
    respData findStubReply = .ok (.arr [.obj [("id", .num 1)]]) ∧
    (.arr [.obj [("id", .num 1)]] : JsVal) ≠ .undefined ∧
    ((findRecords "https://fm.example" "id" "1" "tok" "db" "ly"
        (.reply 200 (.ok findStubReply))).success = true ∧
      (findRecords "https://fm.example" "id" "1" "tok" "db" "ly"
        (.reply 200 (.ok findStubReply))).data ≠ .undefined) ∧
    ((getFileMakerToken "https://fm.example" "db" (.netError "down")).success = false →
      (getFileMakerToken "https://fm.example" "db" (.netError "down")).error.isSome = true) :=
  ⟨rfl, rfl, rfl, fun h => JsVal.noConfusion h,
   c6_amended.2.2.2 "https://fm.example" "id" "1" "tok" "db" "ly"
     (.reply 200 (.ok findStubReply)) findStubReply (.arr [.obj [("id", .num 1)]])
     rfl rfl rfl (fun h => JsVal.noConfusion h),
   (c6_amended.1 "https://fm.example" "db" (.netError "down")).2⟩

/-- C7 (counterexample): the claim fails on its cited source
src/src/index.ts lines 453-506, whose `getFileMakerToken` has no
`isTokenResponse` guard (it checks only `if (!response)`).  There, the
present failed-login reply — which lacks the token shape — is classified by
its embedded code as `FILEMAKER_ERROR`, not `INVALID_RESPONSE`; and a
code-`"0"` reply without a token yields success carrying an undefined
token. -/
theorem c7_counterexample :
    isTokenResponse failedLoginReply = false ∧
    makeFileMakerRequest (.reply 200 (.ok failedLoginReply)) = some failedLoginReply ∧
    errType (SrcIndex.getFileMakerToken "https://fm.example" "db"
        (.reply 200 (.ok failedLoginReply))) = some .FILEMAKER_ERROR ∧
    errType (SrcIndex.getFileMakerToken "https://fm.example" "db"
        (.reply 200 (.ok failedLoginReply))) ≠ some .INVALID_RESPONSE ∧
    isTokenResponse datalessOkReply = false ∧
    (SrcIndex.getFileMakerToken "https://fm.example" "db"
        (.reply 200 (.ok datalessOkReply))).success = true ∧
    (SrcIndex.getFileMakerToken "https://fm.example" "db"
        (.reply 200 (.ok datalessOkReply))).data = .obj [("token", .undefined)] := by
  have h3 : errType (SrcIndex.getFileMakerToken "https://fm.example" "db"
      (.reply 200 (.ok failedLoginReply))) = some .FILEMAKER_ERROR := rfl
  refine ⟨rfl, rfl, h3, ?_, rfl, rfl, rfl⟩
  rw [h3]
  simp

/-- C7 (amended): in the guarded client variants (src/unnamed/part_001, and
likewise src/unnamed/part_000), whenever the transport helper hands
`getFileMakerToken` a present response that fails the `isTokenResponse`
structural guard, the operation returns the `INVALID_RESPONSE` failure
whose details carry the attempted sessions URL — not success, and not
`API_ERROR`.  The unguarded snapshot of src/src/index.ts instead classifies
such replies by their embedded code (see the counterexample). -/
theorem c7_token_shape_guard (su fn : String) (status : Nat)
    (body : Except String JsVal) (j : JsVal)
    (hresp : makeFileMakerRequest (.reply status body) = some j)
    (hshape : isTokenResponse j = false) :
    getFileMakerToken su fn (.reply status body) = tokenInvalidEnvelope su fn ∧
    errType (getFileMakerToken su fn (.reply status body)) = some .INVALID_RESPONSE ∧
    (getFileMakerToken su fn (.reply status body)).success = false := by
  have h1 : getFileMakerToken su fn (.reply status body) = tokenInvalidEnvelope su fn := by
    simp [getFileMakerToken, hresp, hshape]
  refine ⟨h1, ?_, ?_⟩ <;> rw [h1] <;> rfl

/-- C7 (witness): the shape guard evaluated on the failed-login reply,
which is present (HTTP 200, decoded) but lacks `response.token`. -/
theorem c7_token_shape_guard_witness :
    makeFileMakerRequest (.reply 200 (.ok failedLoginReply)) = some failedLoginReply ∧
    isTokenResponse failedLoginReply = false ∧
    getFileMakerToken "https://fm.example" "db" (.reply 200 (.ok failedLoginReply)) =
      tokenInvalidEnvelope "https://fm.example" "db" :=
  ⟨rfl, rfl,
   (c7_token_shape_guard "https://fm.example" "db" 200 (.ok failedLoginReply)
     failedLoginReply rfl rfl).1⟩

/-- C8 (counterexample): with an EMPTY field name the helper-routed find
invocation sends no body at all — the request body is not a query document
and contains no field/value pair, contradicting the claim's parenthetical. -/
theorem c8_counterexample :
    findRecordsRequestBody "https://fm.example" "" "Tanaka" "db" "layout" = none ∧
    findRecordsRequestBody "https://fm.example" "" "Tanaka" "db" "layout" ≠
      some (buildFindQuery "" "Tanaka") :=
  ⟨rfl, fun h => Option.noConfusion h⟩

/-- C8 (amended): whenever the field name and search text are both
nonempty, the body the helper-routed find invocation sends is a query
document whose query array holds one condition object with a nonempty pair
list; the inline variant of part_000 builds such a one-pair document for
every field and text, empty ones included. -/
theorem c8_amended :
    (∀ su f s fn ln, f ≠ "" → s ≠ "" →
        ∃ pairs : List (String × JsVal),
          findRecordsRequestBody su f s fn ln =
            some (.obj [("query", .arr [.obj pairs])]) ∧ pairs ≠ []) ∧
    (∀ f s, ∃ pairs : List (String × JsVal),
        Part000.findRecordsBody f s = .obj [("query", .arr [.obj pairs])] ∧
          pairs.length = 1) := by
  refine ⟨?_, fun f s => ⟨[(f, .str ("=" ++ s))], rfl, rfl⟩⟩
  intro su f s fn ln hf hs
  exact ⟨[(f, .str ("=" ++ s))],
    findRecordsRequestBody_nonempty su f s fn ln hf hs, by simp⟩

/-- C8 (witness): the amended statement evaluated at field `"phone"`, text
`"0312345678"`. -/
theorem c8_amended_witness :
    ("phone" : String) ≠ "" ∧ ("0312345678" : String) ≠ "" ∧
    ∃ pairs : List (String × JsVal),
      findRecordsRequestBody "https://fm.example" "phone" "0312345678" "db" "layout" =
        some (.obj [("query", .arr [.obj pairs])]) ∧ pairs ≠ [] :=
  ⟨by decide, by decide,
   c8_amended.1 "https://fm.example" "phone" "0312345678" "db" "layout"
     (by decide) (by decide)⟩

/-- C9: the field-descriptor reduction of the metadata tool handler is
idempotent — reducing an already-reduced descriptor list yields the same
list, since each of the six projected keys reads back the value the
reduction stored under it. -/
theorem c9_reduction_idempotent (fields : List (List (String × JsVal))) :
    reduceFieldInfo (reduceFieldInfo fields) = reduceFieldInfo fields := by
  unfold reduceFieldInfo
  rw [List.map_map]
  exact List.map_congr_left fun f _ => rfl

/-- C10: on the same non-2xx HTTP reply the operations routed through the
transport helper classify the failure as `INVALID_RESPONSE` — the helper
converts the thrown HTTP error into an absent response — while
`getLayoutMetaData`, which calls fetch directly, classifies the identical
condition as `API_ERROR` carrying the HTTP-status message. -/
theorem c10_non2xx_divergence (su f s tok fn ln : String) (status : Nat)
    (body : Except String JsVal) (h : httpOk status = false) :
    getFileMakerToken su fn (.reply status body) = tokenInvalidEnvelope su fn ∧
    findRecords su f s tok fn ln (.reply status body) = findInvalidEnvelope fn ln ∧
    getLayoutMetaData su fn ln tok (.reply status body) =
      metaApiErrorEnvelope fn ln ("HTTPエラー! ステータス: " ++ toString status) := by
  have hmk := makeFileMakerRequest_not_ok status body h
  exact ⟨by simp [getFileMakerToken, hmk], by simp [findRecords, hmk],
         by simp [getLayoutMetaData, h]⟩

/-- C10 (witness): the divergence evaluated at a 404 reply. -/
theorem c10_non2xx_divergence_witness :
    httpOk 404 = false ∧
    getFileMakerToken "https://fm.example" "db" (.reply 404 (.ok .null)) =
      tokenInvalidEnvelope "https://fm.example" "db" ∧
    findRecords "https://fm.example" "name" "Tanaka" "tok" "db" "ly"
        (.reply 404 (.ok .null)) = findInvalidEnvelope "db" "ly" ∧
    getLayoutMetaData "https://fm.example" "db" "ly" "tok" (.reply 404 (.ok .null)) =
      metaApiErrorEnvelope "db" "ly" ("HTTPエラー! ステータス: " ++ toString 404) :=
  ⟨rfl, c10_non2xx_divergence "https://fm.example" "name" "Tanaka" "tok" "db" "ly"
     404 (.ok .null) rfl⟩

end FM
